import Mathlib

/-!
Verification of the multi-backend storage routing layer of the `uploader`
repository (SvelteKit file-hosting gateway).  The definitions below are a
shallow embedding of the TypeScript route handlers:

* `src/routes/api/upload/+server.ts`  — upload routing (`POST`),
* `src/routes/api/delete/+server.ts`  — deletion coordinator (`handleDelete`),
* `src/routes/[id]/+server.ts`        — retrieval resolver (`GET`),
* `src/routes/t/[id]/+server.ts`      — thumbnail retrieval (`GET`),
* the metadata helpers of `src/lib/db.ts`.

I/O effects (network writes, disk writes, the Mongo connection) are modelled
by boolean success oracles carried in a `World` record; the md5/sha256
digests, random identifiers and random keys produced by `node:crypto` are
modelled as opaque input values.  Everything else — guard checks, backend
selection, fallback chains, error messages, and the metadata record that is
persisted — follows the TypeScript control flow line by line.
-/

namespace Uploader

/-- Storage backend tags, from the `storage` field of `StoredFile` in
`src/routes/api/upload/+server.ts` (`"fs" | "mongodb" | "blob" | "r2"`). -/
inductive Storage
  | fs
  | mongodb
  | blob
  | r2
deriving DecidableEq, Repr

/-- JS truthiness of an optional string field: `undefined` and `""` are falsy. -/
def truthy : Option String → Bool
  | none => false
  | some s => s ≠ ""

/-- The `StoredFile` metadata record persisted per upload
(`src/routes/api/upload/+server.ts` lines 14-32).  Optional TS fields are
`Option String`; the TS field `private` is named `priv` (Lean keyword).
`createdAt` (a wall-clock timestamp) is omitted: no claim mentions it. -/
structure StoredFile where
  id : String
  name : String
  type : String
  ext : String
  key : String
  checksum : String
  size : Nat
  filePath : String
  priv : Bool
  passwordSalt : Option String
  passwordHash : Option String
  storage : Storage
  gridfsId : Option String
  blobPathname : Option String
  r2Bucket : Option String
  r2Key : Option String
deriving DecidableEq, Repr

/-- Server configuration read from environment variables.  Empty string
means the variable is unset (matching the `process.env.X || ""` reads). -/
structure Env where
  storageDefault : String
  maxBytes : Nat
  dualThreshold : Nat
  mongoUri : String
  mongoBucket : String
  r2Endpoint : String
  r2Bucket : String
  r2AccessKeyId : String
  r2SecretAccessKey : String
  blobToken : String
deriving DecidableEq, Repr

/-- `path.extname` (posix) as used by `safeExt`: the substring of the last
path component from its final dot, empty when there is no dot or the only
dot is the leading character of the component.  (Node additionally returns
`""` for components that are entirely dots; those inputs produce `"."` here,
which `safeExt` maps to `""` exactly as Node's `""` would be, so `safeExt`
agrees with the source on every input.)  `splitOnChar` is the structural
helper splitting a character list on a separator. -/
def splitOnChar (sep : Char) : List Char → List Char → List (List Char)
  | [], acc => [acc.reverse]
  | c :: rest, acc =>
    if c = sep then acc.reverse :: splitOnChar sep rest []
    else splitOnChar sep rest (c :: acc)

def extname (p : String) : String :=
  let cs := (splitOnChar '/' p.toList []).getLastD []
  let revAfter := cs.reverse.takeWhile (fun c => c ≠ '.')
  if revAfter.length = cs.length then ""
  else if revAfter.length + 1 = cs.length then ""
  else String.mk ('.' :: revAfter.reverse)

/-- ASCII letter or digit, the character class `[a-zA-Z0-9]` of the regex in
`safeExt` (`48..57` = digits, `65..90` = `A`..`Z`, `97..122` = `a`..`z`). -/
def isAsciiAlnumChar (c : Char) : Bool :=
  (48 ≤ c.toNat && c.toNat ≤ 57) || (65 ≤ c.toNat && c.toNat ≤ 90) ||
    (97 ≤ c.toNat && c.toNat ≤ 122)

/-- ASCII lowercasing of one character.  JS `toLowerCase()` applies full
Unicode lowering, but `safeExt` only lowercases strings that already passed
the `^\.[a-zA-Z0-9]+$` test, on which the two maps agree. -/
def toLowerAsciiChar (c : Char) : Char :=
  if 65 ≤ c.toNat ∧ c.toNat ≤ 90 then Char.ofNat (c.toNat + 32) else c

/-- ASCII lowercasing of a string (see `toLowerAsciiChar`). -/
def strToLowerAscii (s : String) : String :=
  String.mk (s.toList.map toLowerAsciiChar)

/-- The test `/^\.[a-zA-Z0-9]+$/.test ext` from `safeExt`: a leading dot
followed by one or more ASCII alphanumerics, nothing else. -/
def extRegexTest (s : String) : Bool :=
  match s.toList with
  | [] => false
  | c :: rest => c == '.' && !rest.isEmpty && rest.all isAsciiAlnumChar

/-- `safeExt` (`src/routes/api/upload/+server.ts` lines 109-114): truncate the
extension to 16 units, reject `""`/`"."` and anything not matching
`^\.[a-zA-Z0-9]+$`, and lowercase the survivor.  (JS `slice(0,16)` counts
UTF-16 units and `String.take` counts characters; they can only differ on
non-ASCII input, which the regex rejects under both counts.) -/
def safeExt (name : String) : String :=
  let ext := String.mk ((extname name).toList.take 16)
  if ext = "" || ext = "." then ""
  else if !extRegexTest ext then ""
  else strToLowerAscii ext

/-- The embedding of `path.join(filesDir, id + ext)` on the upload fs path:
for a second component free of separators and `..` segments, `path.join` is
concatenation with one separator. -/
def mkLocalPath (filesDir id ext : String) : String :=
  filesDir ++ "/" ++ (id ++ ext)

/-- The 62-character id alphabet of `makeId`. -/
def idAlphabet : String :=
  "0123456789abcdefghijklmnopqrstuvwxyzABCDEFGHIJKLMNOPQRSTUVWXYZ"

/-- `makeId` (lines 134-141): map each of the 8 random bytes to
`alphabet[b % alphabet.length]` and keep the first 6 characters
(`out.slice(0, 6)`).  The random bytes are the `bytes` argument. -/
def makeId (bytes : List Nat) : String :=
  String.mk ((bytes.map (fun b => idAlphabet.toList.getD (b % idAlphabet.length) 'x')).take 6)

/-- One lowercase hex digit (`n < 16`). -/
def hexDigit (n : Nat) : Char :=
  if n < 10 then Char.ofNat (48 + n) else Char.ofNat (87 + n)

/-- Two lowercase hex digits of one byte, as in `Buffer.toString("hex")`. -/
def byteToHex (b : Nat) : List Char :=
  [hexDigit (b % 256 / 16), hexDigit (b % 256 % 16)]

/-- `crypto.randomBytes(n).toString("hex")` for a given byte list. -/
def bytesToHex (bs : List Nat) : String :=
  String.mk ((bs.map byteToHex).flatten)

/-- The retry loop of the id allocation (lines 211-218): at most `fuel`
further candidates are drawn (`rand t` is the byte vector of attempt `t`)
and checked against the store; when the fuel runs out the hex fallback is
returned, without a collision check. -/
def allocateGo (store : String → Bool) (rand : Nat → List Nat) (fallback : List Nat) :
    Nat → Nat → String
  | 0, _ => bytesToHex fallback
  | fuel + 1, t =>
    let candidate := makeId (rand t)
    if store candidate then allocateGo store rand fallback fuel (t + 1) else candidate

/-- The id allocation IIFE (lines 211-218): up to 10 candidates from
`makeId`, each collision-checked via `index.filesById`, then the
`crypto.randomBytes(6).toString("hex")` fallback. -/
def allocate (store : String → Bool) (rand : Nat → List Nat) (fallback : List Nat) : String :=
  allocateGo store rand fallback 10 0

/-- The request-derived inputs of the upload `POST` handler.  Fields mirror
the reads of `form.get(...)` and `url.searchParams.get(...)`: `none` means
the field was absent (or not a string), `some ""` that it was present but
empty. -/
structure UploadReq where
  hasFile : Bool
  fileName : String
  fileType : String
  fileSize : Nat
  visibility : Option String
  passwordField : Option String
  privateField : Option String
  checksumField : Option String
  formStorage : Option String
  queryStorage : Option String
deriving DecidableEq, Repr

/-- Success/failure oracles for the I/O performed while handling one upload,
together with the opaque values produced by `node:crypto` during the
request: `digest` is the md5 hex digest the streaming hasher computes,
`gridfsOid` the `uploadStream.id`, `blobUrl`/`blobPathname` the result of
the blob `put`, `key` the random deletion key and `salt` the random password
salt. -/
structure World where
  mongoConnectOk : Bool
  mongoWriteOk : Bool
  blobOk : Bool
  r2Ok : Bool
  fsOk : Bool
  metaSaveOk : Bool
  digest : String
  gridfsOid : String
  blobUrl : String
  blobPathname : String
  key : String
  salt : String
deriving DecidableEq, Repr

/-- Result of the upload handler: an explicit JSON error response, a success
response whose metadata record was persisted, or an exception that escaped
the handler (no response built by the route, nothing persisted). -/
inductive Outcome
  | err (status : Nat) (msg : String)
  | ok (rec : StoredFile)
  | thrown
deriving DecidableEq, Repr

/-- JS `String.prototype.trim()` restricted to the ASCII whitespace the
inputs here can carry: drop whitespace from both ends. -/
def jsTrim (s : String) : String :=
  String.mk (((s.toList.dropWhile Char.isWhitespace).reverse.dropWhile
    Char.isWhitespace).reverse)

/-- `visibility === "private" || form.get("private") === "true"` (line 191). -/
def uploadIsPrivate (req : UploadReq) : Bool :=
  req.visibility == some "private" || req.privateField == some "true"

/-- `typeof rawPassword === "string" ? rawPassword.trim() : ""` (line 193). -/
def uploadPassword (req : UploadReq) : String :=
  match req.passwordField with
  | some s => jsTrim s
  | none => ""

/-- The `providedChecksum` read (line 188). -/
def providedChecksum (req : UploadReq) : String :=
  match req.checksumField with
  | some s => s
  | none => ""

/-- `Boolean(providedChecksum && providedChecksum.trim().length > 0)` (line 190). -/
def useClientChecksum (req : UploadReq) : Bool :=
  providedChecksum req != "" && jsTrim (providedChecksum req) != ""

/-- JS `a || b` on nullable strings: `none` and `some ""` fall through. -/
def jsOrStr (a : Option String) (b : String) : String :=
  match a with
  | some s => if s = "" then b else s
  | none => b

/-- The `storage` selection chain (lines 221-225): form field, else query
parameter, else `UPLOADER_STORAGE_DEFAULT`, else `"fs"`, with JS falsiness
at each step. -/
def requestedStorage (req : UploadReq) (env : Env) : String :=
  jsOrStr req.formStorage (jsOrStr req.queryStorage (jsOrStr (some env.storageDefault) "fs"))

/-- Line 235: `(!url.searchParams.get("storage") && !(typeof form.get("storage")
=== "string")) && file.size > dualThreshold`.  An empty query value is falsy,
but any string-valued form field — even `""` — disables the dual path. -/
def isDualUpload (req : UploadReq) (env : Env) : Bool :=
  (match req.queryStorage with
   | some s => s == ""
   | none => true) &&
  req.formStorage.isNone && decide (env.dualThreshold < req.fileSize)

/-- The R2 configuration check used by the upload branches (lines 255, 390,
458): endpoint, bucket and both credentials must be nonempty. -/
def r2Configured (env : Env) : Bool :=
  env.r2Endpoint != "" && env.r2Bucket != "" && env.r2AccessKeyId != "" &&
    env.r2SecretAccessKey != ""

/-- `(result as any).pathname || undefined` from the blob `put` result. -/
def blobPathOpt (w : World) : Option String :=
  if w.blobPathname == "" then none else some w.blobPathname

/-- Lines 591-621: assemble the `StoredFile` record from the request and the
values accumulated by the chosen storage branch.  `hashFn` stands for
`(salt, password) => sha256hex(salt + password)` (`hashPassword`,
lines 153-158); `storageStr` is the final value of the mutable `storage`
variable, mapped to a tag exactly as in lines 609-616. -/
def buildRecord (hashFn : String → String → String) (w : World) (req : UploadReq)
    (id ext storageStr checksum filePath : String)
    (gridfsId blobPathname r2Bucket r2Key : Option String) : StoredFile :=
  let isPrivate := uploadIsPrivate req
  let passwordSalt := if isPrivate then w.salt else ""
  let passwordHash := if isPrivate then hashFn passwordSalt (uploadPassword req) else ""
  { id := id
    name := if req.fileName = "" then id else req.fileName
    type := if req.fileType = "" then "application/octet-stream" else req.fileType
    ext := ext
    key := w.key
    checksum := checksum
    size := req.fileSize
    filePath := filePath
    priv := isPrivate
    passwordSalt := if passwordSalt = "" then none else some passwordSalt
    passwordHash := if passwordHash = "" then none else some passwordHash
    storage :=
      if storageStr = "mongodb" then Storage.mongodb
      else if storageStr = "blob" then Storage.blob
      else if storageStr = "r2" then Storage.r2
      else Storage.fs
    gridfsId := gridfsId
    blobPathname := blobPathname
    r2Bucket := r2Bucket
    r2Key := r2Key }

/-- `saveIndex` (resp. `saveFileMetadata`) as the final step of the handler:
on success the built record is the persisted metadata; a failing store
throws out of the handler (no JSON response, nothing persisted). -/
def persist (w : World) (rec : StoredFile) (attempts : List Storage) :
    Outcome × List Storage :=
  if w.metaSaveOk then (Outcome.ok rec, attempts) else (Outcome.thrown, attempts)

/-- Lines 237-314, the dual-write branch taken for large files with no
explicit backend: `getMongo()` throws inside the try when MONGODB_URI is
missing or the connection fails, reaching the catch; the R2 configuration
check then returns its own 500; otherwise the GridFS and R2 writes are both
issued concurrently (`Promise.all`) and a failure of either reaches the
catch.  On success the record is tagged `r2` and also keeps the GridFS id.
`checksum` is the final checksum value (client-supplied or digest). -/
def dualBranch (hashFn : String → String → String) (env : Env) (w : World)
    (req : UploadReq) (id ext checksum : String) : Outcome × List Storage :=
  if env.mongoUri == "" || !w.mongoConnectOk then
    (Outcome.err 500 "Dual upload failed", [])
  else if !r2Configured env then
    (Outcome.err 500 "Missing R2 configuration env", [])
  else if w.mongoWriteOk && w.r2Ok then
    persist w (buildRecord hashFn w req id ext "r2" checksum
      ("r2://" ++ env.r2Bucket ++ "/" ++ (id ++ ext))
      (some w.gridfsOid) none (some env.r2Bucket) (some (id ++ ext)))
      [Storage.mongodb, Storage.r2]
  else
    (Outcome.err 500 "Dual upload failed", [Storage.mongodb, Storage.r2])

/-- Lines 315-345, the explicit `storage=mongodb` branch (`ss` is the final
`storage` string, here `"mongodb"`). -/
def mongoBranch (hashFn : String → String → String) (env : Env) (w : World)
    (req : UploadReq) (id ext ss checksum : String) : Outcome × List Storage :=
  if env.mongoUri == "" || !w.mongoConnectOk then
    (Outcome.err 500 "MongoDB upload failed", [])
  else if !w.mongoWriteOk then
    (Outcome.err 500 "MongoDB upload failed", [Storage.mongodb])
  else
    let bucketName := if env.mongoBucket == "" then "uploads" else env.mongoBucket
    persist w (buildRecord hashFn w req id ext ss checksum
      ("gridfs://" ++ bucketName ++ "/" ++ (id ++ ext))
      (some w.gridfsOid) none none none) [Storage.mongodb]

/-- Lines 346-450, the explicit `storage=blob` branch of the main handler:
a failing blob put falls into the catch, which retries the upload on R2
when R2 is configured. -/
def blobBranch (hashFn : String → String → String) (env : Env) (w : World)
    (req : UploadReq) (id ext ss checksum : String) : Outcome × List Storage :=
  if w.blobOk then
    persist w (buildRecord hashFn w req id ext ss checksum
      w.blobUrl none (blobPathOpt w) none none) [Storage.blob]
  else if !r2Configured env then
    (Outcome.err 500 "Blob upload failed, R2 fallback unavailable", [Storage.blob])
  else if w.r2Ok then
    persist w (buildRecord hashFn w req id ext "r2" checksum
      ("r2://" ++ env.r2Bucket ++ "/" ++ (id ++ ext))
      none none (some env.r2Bucket) (some (id ++ ext)))
      [Storage.blob, Storage.r2]
  else
    (Outcome.err 500 "Blob upload failed and R2 fallback failed",
      [Storage.blob, Storage.r2])

/-- Lines 451-568, the explicit `storage=r2` branch of the main handler:
with R2 unconfigured the handler retries on blob when a blob token exists;
otherwise it issues the R2 put. -/
def r2Branch (hashFn : String → String → String) (env : Env) (w : World)
    (req : UploadReq) (id ext ss checksum : String) : Outcome × List Storage :=
  if !r2Configured env then
    if env.blobToken == "" then
      (Outcome.err 500 "Missing R2 configuration env", [])
    else if w.blobOk then
      persist w (buildRecord hashFn w req id ext "blob" checksum
        w.blobUrl none (blobPathOpt w) none none) [Storage.blob]
    else
      (Outcome.err 500 "Missing R2 configuration env and Blob fallback failed",
        [Storage.blob])
  else if w.r2Ok then
    persist w (buildRecord hashFn w req id ext ss checksum
      ("r2://" ++ env.r2Bucket ++ "/" ++ (id ++ ext))
      none none (some env.r2Bucket) (some (id ++ ext))) [Storage.r2]
  else
    (Outcome.err 500 "R2 upload failed", [Storage.r2])

/-- Lines 569-590, the default local filesystem write (`ss` is the final
`storage` string, matching none of the named backends); a pipeline failure
is not caught and escapes the handler. -/
def fsBranch (hashFn : String → String → String) (w : World) (req : UploadReq)
    (id ext ss checksum filesDir : String) : Outcome × List Storage :=
  let filePath := mkLocalPath filesDir id ext
  if w.fsOk then
    persist w (buildRecord hashFn w req id ext ss checksum
      filePath none none none none) [Storage.fs]
  else
    (Outcome.thrown, [Storage.fs])

/-- The upload `POST` handler of `src/routes/api/upload/+server.ts`
(lines 178-638), starting after the token and rate-limit gates (external
collaborators).  `id` is the identifier produced by the allocation loop
(modelled separately as `allocate`), `filesDir` the configured files
directory.  The final checksum value — client-supplied and trimmed when
`useClientChecksum`, else the streaming digest — is identical across the
branches and is computed once here.  The second component of the result
lists the backend write attempts actually issued, in program order. -/
def uploadRoute (hashFn : String → String → String) (env : Env) (w : World)
    (req : UploadReq) (id : String) (filesDir : String) : Outcome × List Storage :=
  if !req.hasFile then
    (Outcome.err 400 "Missing multipart form field \"file\"", [])
  else if uploadIsPrivate req && uploadPassword req == "" then
    (Outcome.err 400 "Password is required for private files", [])
  else if decide (0 < env.maxBytes) && decide (env.maxBytes < req.fileSize) then
    (Outcome.err 413 "File too large", [])
  else
    let ext := safeExt req.fileName
    let storage0 := requestedStorage req env
    let checksum := if useClientChecksum req then jsTrim (providedChecksum req) else w.digest
    if isDualUpload req env then dualBranch hashFn env w req id ext checksum
    else if storage0 == "mongodb" then mongoBranch hashFn env w req id ext storage0 checksum
    else if storage0 == "blob" then blobBranch hashFn env w req id ext storage0 checksum
    else if storage0 == "r2" then r2Branch hashFn env w req id ext storage0 checksum
    else fsBranch hashFn w req id ext storage0 checksum filesDir

/-- Lines 246-275 of `src/unnamed/part_001`: its explicit `storage=blob`
branch has no R2 fallback. -/
def blobBranchDb (hashFn : String → String → String) (w : World)
    (req : UploadReq) (id ext ss checksum : String) : Outcome × List Storage :=
  if w.blobOk then
    persist w (buildRecord hashFn w req id ext ss checksum
      w.blobUrl none (blobPathOpt w) none none) [Storage.blob]
  else
    (Outcome.err 500 "Blob upload failed", [Storage.blob])

/-- Lines 276-324 of `src/unnamed/part_001`: its explicit `storage=r2`
branch has no blob fallback. -/
def r2BranchDb (hashFn : String → String → String) (env : Env) (w : World)
    (req : UploadReq) (id ext ss checksum : String) : Outcome × List Storage :=
  if !r2Configured env then
    (Outcome.err 500 "Missing R2 configuration env", [])
  else if w.r2Ok then
    persist w (buildRecord hashFn w req id ext ss checksum
      ("r2://" ++ env.r2Bucket ++ "/" ++ (id ++ ext))
      none none (some env.r2Bucket) (some (id ++ ext))) [Storage.r2]
  else
    (Outcome.err 500 "R2 upload failed", [Storage.r2])

/-- The Mongo-metadata variant of the upload handler
(`src/unnamed/part_001`, lines 95-372).  Same routing skeleton as
`uploadRoute`, but no client-supplied checksum, no blob-to-R2 or R2-to-blob
fallbacks, and metadata goes through `saveFileMetadata`. -/
def uploadRouteDb (hashFn : String → String → String) (env : Env) (w : World)
    (req : UploadReq) (id : String) (filesDir : String) : Outcome × List Storage :=
  if !req.hasFile then
    (Outcome.err 400 "Missing multipart form field \"file\"", [])
  else if uploadIsPrivate req && uploadPassword req == "" then
    (Outcome.err 400 "Password is required for private files", [])
  else if decide (0 < env.maxBytes) && decide (env.maxBytes < req.fileSize) then
    (Outcome.err 413 "File too large", [])
  else
    let ext := safeExt req.fileName
    let storage0 := requestedStorage req env
    if isDualUpload req env then dualBranch hashFn env w req id ext w.digest
    else if storage0 == "mongodb" then mongoBranch hashFn env w req id ext storage0 w.digest
    else if storage0 == "blob" then blobBranchDb hashFn w req id ext storage0 w.digest
    else if storage0 == "r2" then r2BranchDb hashFn env w req id ext storage0 w.digest
    else fsBranch hashFn w req id ext storage0 w.digest filesDir

/-- Success oracles for the I/O of a retrieval request. -/
structure GetWorld where
  mongoConnectOk : Bool
  blobFetchOk : Bool
  r2GetOk : Bool
deriving DecidableEq, Repr

/-- Result of a retrieval: 404, 403, the 500 for missing R2 credentials, a
byte stream served from the given backend, or an exception that escaped the
handler. -/
inductive GetOutcome
  | notFound
  | forbidden
  | misconfigured
  | bytes (b : Storage)
  | thrown
deriving DecidableEq, Repr

/-- The password gate of `src/routes/[id]/+server.ts` lines 65-77 (identical
in `src/routes/t/[id]/+server.ts` lines 43-55): active only when
`meta.private && meta.passwordHash && meta.passwordSalt` are all truthy, and
then blocking when the supplied password is falsy or its salted hash
differs from the stored hash under `!==`.  `hashFn` stands for
`(salt, pw) => sha256hex(salt + pw)`. -/
def passwordGateBlocks (hashFn : String → String → String) (meta : StoredFile)
    (provided : String) : Bool :=
  meta.priv && truthy meta.passwordHash && truthy meta.passwordSalt &&
    (provided == "" ||
      hashFn (meta.passwordSalt.getD "") provided != meta.passwordHash.getD "")

/-- `List.isPrefixOf`-based embedding of `String.startsWith`. -/
def strStartsWith (s p : String) : Bool :=
  List.isPrefixOf p.toList s.toList

/-- Backend dispatch of the retrieval route (lines 79-110): strict dispatch
on the `storage` tag with the corresponding locator truthy, defaulting to a
local filesystem read.  The second component records which backends were
contacted. -/
def resolveDispatch (env : Env) (w : GetWorld) (meta : StoredFile) :
    GetOutcome × List Storage :=
  if meta.storage == Storage.mongodb && truthy meta.gridfsId then
    -- `getMongo()` throws (uncaught) when MONGODB_URI is missing or the
    -- connection fails.
    if env.mongoUri == "" || !w.mongoConnectOk then (GetOutcome.thrown, [])
    else (GetOutcome.bytes Storage.mongodb, [Storage.mongodb])
  else if meta.storage == Storage.blob && meta.filePath != "" then
    if w.blobFetchOk then (GetOutcome.bytes Storage.blob, [Storage.blob])
    else (GetOutcome.notFound, [Storage.blob])
  else if meta.storage == Storage.r2 && truthy meta.r2Bucket && truthy meta.r2Key then
    if env.r2Endpoint == "" || env.r2AccessKeyId == "" || env.r2SecretAccessKey == "" then
      (GetOutcome.misconfigured, [])
    else if w.r2GetOk then (GetOutcome.bytes Storage.r2, [Storage.r2])
    else (GetOutcome.thrown, [Storage.r2])
  else
    (GetOutcome.bytes Storage.fs, [Storage.fs])

/-- The retrieval `GET` handler of `src/routes/[id]/+server.ts`
(lines 59-124): metadata lookup, password gate, backend dispatch.
`lookedUp` is the result of `index.filesById[id]`, `provided` the password
from `?pw=` or the `x-file-password` header (empty when absent). -/
def GETid (hashFn : String → String → String) (env : Env) (w : GetWorld)
    (lookedUp : Option StoredFile) (provided : String) : GetOutcome × List Storage :=
  match lookedUp with
  | none => (GetOutcome.notFound, [])
  | some meta =>
    if passwordGateBlocks hashFn meta provided then (GetOutcome.forbidden, [])
    else resolveDispatch env w meta

/-- The thumbnail `GET` handler of `src/routes/t/[id]/+server.ts`
(lines 36-64): 404 unless the record exists with an `image/*` content type,
then the same password gate, then a local filesystem read. -/
def GETthumb (hashFn : String → String → String) (lookedUp : Option StoredFile)
    (provided : String) : GetOutcome × List Storage :=
  match lookedUp with
  | none => (GetOutcome.notFound, [])
  | some meta =>
    if !strStartsWith meta.type "image/" then (GetOutcome.notFound, [])
    else if passwordGateBlocks hashFn meta provided then (GetOutcome.forbidden, [])
    else (GetOutcome.bytes Storage.fs, [Storage.fs])

/-- One backend deletion call of the deletion coordinator. -/
inductive DeleteOp
  | gridfs
  | blobDel
  | r2Del
  | fsRm
deriving DecidableEq, Repr

/-- Success oracles for the I/O of a delete request: the Mongo connection
used by the `getFileMetadata` lookup, the four individually-swallowed
backend delete calls, and the final `deleteFileMetadata`. -/
structure DelWorld where
  lookupConnectOk : Bool
  gridfsDeleteOk : Bool
  blobDelOk : Bool
  r2DelOk : Bool
  rmOk : Bool
  metaDeleteOk : Bool
deriving DecidableEq, Repr

/-- Result of a delete request. -/
inductive DelOutcome
  | err (status : Nat) (msg : String)
  | success
  | thrown
deriving DecidableEq, Repr

/-- The backend delete calls issued by `handleDelete`
(`src/routes/api/delete/+server.ts` lines 70-102), in program order, paired
with each call's own outcome.  Every call sits in its own `try {} catch {}`
so the paired outcome influences nothing downstream.  The R2 call is issued
only when endpoint and both credentials are configured (lines 81-84); the
local `rm` only for a truthy `filePath` that is not a `gridfs://`, `r2://`
or `http` reference (line 100). -/
def deleteOps (env : Env) (w : DelWorld) (meta : StoredFile) : List (DeleteOp × Bool) :=
  (if truthy meta.gridfsId then [(DeleteOp.gridfs, w.gridfsDeleteOk)] else []) ++
  (if truthy meta.blobPathname then [(DeleteOp.blobDel, w.blobDelOk)] else []) ++
  (if truthy meta.r2Bucket && truthy meta.r2Key &&
      env.r2Endpoint != "" && env.r2AccessKeyId != "" && env.r2SecretAccessKey != "" then
    [(DeleteOp.r2Del, w.r2DelOk)]
   else []) ++
  (if meta.filePath != "" && !strStartsWith meta.filePath "gridfs://" &&
      !strStartsWith meta.filePath "r2://" && !strStartsWith meta.filePath "http" then
    [(DeleteOp.fsRm, w.rmOk)]
   else [])

/-- `handleDelete` (`src/routes/api/delete/+server.ts` lines 53-112).
`lookup` is `getFileMetadata (·, 'key')`; its Mongo connection failure
throws out of the handler.  After a successful lookup the client is cached,
so the `getMongo()` call inside the deletion block cannot throw and the
surrounding catch (the 500 "Failed deleting file" response) is unreachable;
each backend delete failure is swallowed by its own inner catch.  The third
component of the result tells whether the metadata record was removed. -/
def handleDelete (env : Env) (w : DelWorld) (keyParam : Option String)
    (lookup : String → Option StoredFile) : DelOutcome × List (DeleteOp × Bool) × Bool :=
  let key := keyParam.getD ""
  if key == "" then
    (DelOutcome.err 400 "Missing query param \"key\"", [], false)
  else if env.mongoUri == "" || !w.lookupConnectOk then
    (DelOutcome.thrown, [], false)
  else
    match lookup key with
    | none => (DelOutcome.err 404 "File not found", [], false)
    | some meta =>
      let ops := deleteOps env w meta
      if w.metaDeleteOk then (DelOutcome.success, ops, true)
      else (DelOutcome.thrown, ops, false)

/-- The `storage` tag of a successful upload response's persisted record. -/
def outcomeStorage : Outcome → Option Storage
  | Outcome.ok rec => some rec.storage
  | _ => none

/-- The `gridfsId` locator of a successful upload's persisted record. -/
def outcomeGridfsId : Outcome → Option String
  | Outcome.ok rec => rec.gridfsId
  | _ => none

/-- The `r2Key` locator of a successful upload's persisted record. -/
def outcomeR2Key : Outcome → Option String
  | Outcome.ok rec => rec.r2Key
  | _ => none

/-- The `blobPathname` locator of a successful upload's persisted record. -/
def outcomeBlobPathname : Outcome → Option String
  | Outcome.ok rec => rec.blobPathname
  | _ => none

/-- Concrete stand-in for the abstract salted-hash function, used by the
closed evaluation theorems. -/
def hashConcat (salt pw : String) : String :=
  salt ++ ":" ++ pw

/-- A fully configured deployment: Mongo, R2 and a blob token all present,
default size limits, no storage default. -/
def envFull : Env :=
  { storageDefault := ""
    maxBytes := 104857600
    dualThreshold := 7340032
    mongoUri := "mongodb://db.example/u"
    mongoBucket := ""
    r2Endpoint := "https://r2.example"
    r2Bucket := "bkt"
    r2AccessKeyId := "ak"
    r2SecretAccessKey := "sk"
    blobToken := "blobtok" }

/-- `envFull` with the whole R2 credential set removed. -/
def envNoR2 : Env :=
  { envFull with r2Endpoint := "", r2Bucket := "", r2AccessKeyId := "", r2SecretAccessKey := "" }

/-- Upload world where every backend write succeeds. -/
def worldAllOk : World :=
  { mongoConnectOk := true
    mongoWriteOk := true
    blobOk := true
    r2Ok := true
    fsOk := true
    metaSaveOk := true
    digest := "d0"
    gridfsOid := "gfs1"
    blobUrl := "https://blob.example/abc123.txt"
    blobPathname := "abc123.txt"
    key := "k0"
    salt := "s0" }

/-- Upload world where only the blob put fails. -/
def worldBlobDown : World :=
  { worldAllOk with blobOk := false }

/-- Upload world where only the GridFS write fails. -/
def worldMongoWriteDown : World :=
  { worldAllOk with mongoWriteOk := false }

/-- A plain small public upload request with no storage selector. -/
def reqBase : UploadReq :=
  { hasFile := true
    fileName := "a.txt"
    fileType := "text/plain"
    fileSize := 50
    visibility := none
    passwordField := none
    privateField := none
    checksumField := none
    formStorage := none
    queryStorage := none }

/-- `reqBase` with the form field `storage=blob`. -/
def reqExplicitBlob : UploadReq :=
  { reqBase with formStorage := some "blob" }

/-- `reqBase` with the form field `storage=mongodb`. -/
def reqExplicitMongo : UploadReq :=
  { reqBase with formStorage := some "mongodb" }

/-- A large upload (8 MiB > the 7 MiB dual threshold), no storage selector. -/
def reqLarge : UploadReq :=
  { reqBase with fileName := "big.bin", fileType := "application/zip", fileSize := 8388608 }

/-- Retrieval world where every backend read succeeds. -/
def getWorldOk : GetWorld :=
  { mongoConnectOk := true, blobFetchOk := true, r2GetOk := true }

/-- A metadata store in which every candidate id is already taken. -/
def storeAll : String → Bool :=
  fun _ => true

/-- A metadata store with no ids. -/
def storeNone : String → Bool :=
  fun _ => false

/-- A random-byte source that always yields eight `1` bytes. -/
def randOnes : Nat → List Nat :=
  fun _ => [1, 1, 1, 1, 1, 1, 1, 1]

/-- A record whose only locator is the R2 pair, as produced by a successful
explicit `storage=r2` upload. -/
def metaR2 : StoredFile :=
  { id := "abc123"
    name := "k.bin"
    type := "application/octet-stream"
    ext := ".bin"
    key := "k0"
    checksum := "d0"
    size := 50
    filePath := "r2://bkt/abc123.bin"
    priv := false
    passwordSalt := none
    passwordHash := none
    storage := Storage.r2
    gridfsId := none
    blobPathname := none
    r2Bucket := some "bkt"
    r2Key := some "abc123.bin" }

/-- A record carrying every backend locator a mixed write history can leave. -/
def metaAllLoc : StoredFile :=
  { metaR2 with
    gridfsId := some "gfs1"
    blobPathname := some "p.bin"
    filePath := "/data/files/abc123.bin" }

/-- Delete world where every operation succeeds. -/
def delWorldOk : DelWorld :=
  { lookupConnectOk := true
    gridfsDeleteOk := true
    blobDelOk := true
    r2DelOk := true
    rmOk := true
    metaDeleteOk := true }

/-- Delete world where the GridFS delete and the local `rm` fail. -/
def delWorldMixed : DelWorld :=
  { delWorldOk with gridfsDeleteOk := false, rmOk := false }

/-- Metadata lookup serving `metaAllLoc` under the key `"deletekey"`. -/
def lookupAll : String → Option StoredFile :=
  fun k => if k == "deletekey" then some metaAllLoc else none

/-- Metadata lookup serving `metaR2` under the key `"deletekey"`. -/
def lookupR2 : String → Option StoredFile :=
  fun k => if k == "deletekey" then some metaR2 else none

/-- A private record stored on the filesystem backend, salted with `"s0"`
and holding the hash of the password `"pw1"` under `hashConcat`. -/
def metaPrivateFs : StoredFile :=
  { id := "abc123"
    name := "a.txt"
    type := "text/plain"
    ext := ".txt"
    key := "k0"
    checksum := "d0"
    size := 50
    filePath := "/data/files/abc123.txt"
    priv := true
    passwordSalt := some "s0"
    passwordHash := some (hashConcat "s0" "pw1")
    storage := Storage.fs
    gridfsId := none
    blobPathname := none
    r2Bucket := none
    r2Key := none }

/-- A record flagged private but with no salt or hash stored, with an image
content type so the thumbnail route also serves it. -/
def metaPrivNoHash : StoredFile :=
  { metaPrivateFs with
    type := "image/png"
    passwordSalt := none
    passwordHash := none }

/-- The success conditions of the backend writes a persisted record
describes: the authoritative backend's write succeeded, and every locator
present on the record points at a write that succeeded. -/
def recWritesOk (env : Env) (w : World) (rec : StoredFile) : Prop :=
  (rec.storage = Storage.fs → w.fsOk = true) ∧
  (rec.storage = Storage.mongodb →
    env.mongoUri ≠ "" ∧ w.mongoConnectOk = true ∧ w.mongoWriteOk = true) ∧
  (rec.storage = Storage.blob → w.blobOk = true) ∧
  (rec.storage = Storage.r2 → w.r2Ok = true) ∧
  (rec.gridfsId ≠ none → w.mongoConnectOk = true ∧ w.mongoWriteOk = true) ∧
  (rec.blobPathname ≠ none → w.blobOk = true) ∧
  (rec.r2Key ≠ none → w.r2Ok = true)

/-- How the locator fields of a persisted record relate to its backend tag:
R2 locators appear only on r2-tagged records, the blob pathname only on
blob-tagged ones, and a GridFS id only on mongodb- or (via the dual write)
r2-tagged ones; an fs record carries no locator at all, and the blob
pathname never coexists with another locator. -/
def locatorsOk (rec : StoredFile) : Prop :=
  ((rec.r2Bucket ≠ none ∨ rec.r2Key ≠ none) → rec.storage = Storage.r2) ∧
  (rec.blobPathname ≠ none → rec.storage = Storage.blob) ∧
  (rec.gridfsId ≠ none → rec.storage = Storage.mongodb ∨ rec.storage = Storage.r2) ∧
  (rec.storage = Storage.fs → rec.gridfsId = none ∧ rec.blobPathname = none ∧
    rec.r2Bucket = none ∧ rec.r2Key = none) ∧
  (rec.blobPathname ≠ none → rec.gridfsId = none ∧ rec.r2Key = none)

/-- The record persisted by `uploadRoute hashConcat envFull worldAllOk
reqBase "abc123" "/data/files"` (the small default filesystem upload). -/
def recFs : StoredFile :=
  { id := "abc123"
    name := "a.txt"
    type := "text/plain"
    ext := ".txt"
    key := "k0"
    checksum := "d0"
    size := 50
    filePath := "/data/files/abc123.txt"
    priv := false
    passwordSalt := none
    passwordHash := none
    storage := Storage.fs
    gridfsId := none
    blobPathname := none
    r2Bucket := none
    r2Key := none }

/-- The record persisted by `uploadRoute hashConcat envFull worldAllOk
reqLarge "abc123" "/data/files"` (the large dual-write upload): tagged r2
while also carrying the GridFS id. -/
def recDual : StoredFile :=
  { id := "abc123"
    name := "big.bin"
    type := "application/zip"
    ext := ".bin"
    key := "k0"
    checksum := "d0"
    size := 8388608
    filePath := "r2://bkt/abc123.bin"
    priv := false
    passwordSalt := none
    passwordHash := none
    storage := Storage.r2
    gridfsId := some "gfs1"
    blobPathname := none
    r2Bucket := some "bkt"
    r2Key := some "abc123.bin" }

example : safeExt "photo.JPG" = ".jpg" := by decide
example : safeExt "archive.tar.gz" = ".gz" := by decide
example : safeExt "evil/../../x.png" = ".png" := by decide
example : safeExt "noext" = "" := by decide
example : safeExt ".bashrc" = "" := by decide
example : safeExt "a.b!c" = "" := by decide
example : safeExt "dots..." = "" := by decide
example : makeId [0, 1, 2, 3, 4, 5, 6, 7] = "012345" := by decide
example : makeId [62, 63, 0, 0, 0, 0, 0, 0] = "010000" := by decide
example : allocate (fun _ => false) (fun _ => [0, 0, 0, 0, 0, 0, 0, 0]) [1, 2, 3, 4, 5, 6]
    = "000000" := by decide
example : allocate (fun _ => true) (fun _ => [0, 0, 0, 0, 0, 0, 0, 0]) [255, 0, 10, 0, 0, 0]
    = "ff000a000000" := by decide

example :
    outcomeStorage (uploadRoute hashConcat envFull worldAllOk reqBase "abc123" "/data/files").1
      = some Storage.fs := by decide
example :
    (uploadRoute hashConcat envFull worldAllOk reqBase "abc123" "/data/files").2
      = [Storage.fs] := by decide
example :
    outcomeStorage (uploadRoute hashConcat envFull worldAllOk reqLarge "abc123" "/data/files").1
      = some Storage.r2 := by decide
example :
    outcomeStorage (uploadRoute hashConcat envFull worldBlobDown reqExplicitBlob "abc123" "/data/files").1
      = some Storage.r2 := by decide
example :
    (uploadRoute hashConcat envFull worldMongoWriteDown reqExplicitMongo "abc123" "/data/files").1
      = Outcome.err 500 "MongoDB upload failed" := by decide

theorem char_toNat_ofNat (n : Nat) (h : n < 55296) : (Char.ofNat n).toNat = n := by
  have hv : n.isValidChar := Or.inl h
  rw [Char.ofNat, dif_pos hv]
  simp [Char.ofNatAux, Char.toNat, UInt32.toNat, BitVec.toNat_ofNatLt]

theorem toLowerAsciiChar_good (c : Char) (h : isAsciiAlnumChar c = true) :
    (97 ≤ (toLowerAsciiChar c).toNat ∧ (toLowerAsciiChar c).toNat ≤ 122) ∨
      (48 ≤ (toLowerAsciiChar c).toNat ∧ (toLowerAsciiChar c).toNat ≤ 57) := by
  unfold isAsciiAlnumChar at h
  simp only [Bool.or_eq_true, Bool.and_eq_true, decide_eq_true_eq] at h
  unfold toLowerAsciiChar
  split_ifs with hU
  · left
    clear h
    obtain ⟨h1, h2⟩ := hU
    rw [char_toNat_ofNat (c.toNat + 32) (by omega)]
    omega
  · rcases h with (h | h) | h
    · exact Or.inr h
    · exact absurd h hU
    · exact Or.inl h

theorem safeExt_shape (name : String) :
    safeExt name = "" ∨
      ∃ cs : List Char, (safeExt name).toList = '.' :: cs ∧ cs ≠ [] ∧ cs.length ≤ 15 ∧
        ∀ c ∈ cs, (97 ≤ c.toNat ∧ c.toNat ≤ 122) ∨ (48 ≤ c.toNat ∧ c.toNat ≤ 57) := by
  have hlen : ((extname name).toList.take 16).length ≤ 16 := by
    rw [List.length_take]
    exact min_le_left _ _
  simp only [safeExt]
  split_ifs with h1 h2
  · left; rfl
  · left; rfl
  · right
    rcases hc : (extname name).toList.take 16 with _ | ⟨c, rest⟩
    · rw [hc] at h2
      exact (h2 (by decide)).elim
    · rw [hc] at h2 hlen
      have h2' : extRegexTest (String.mk (c :: rest)) = true := by
        cases hE : extRegexTest (String.mk (c :: rest))
        · rw [hE] at h2
          exact (h2 (by decide)).elim
        · rfl
      have hreg : extRegexTest (String.mk (c :: rest))
          = (c == '.' && !rest.isEmpty && rest.all isAsciiAlnumChar) := rfl
      rw [hreg] at h2'
      simp only [Bool.and_eq_true, beq_iff_eq, Bool.not_eq_true', List.all_eq_true] at h2'
      obtain ⟨⟨hdot, hne⟩, hall⟩ := h2'
      subst hdot
      refine ⟨rest.map toLowerAsciiChar, ?_, ?_, ?_, ?_⟩
      · show ('.' :: rest).map toLowerAsciiChar = '.' :: rest.map toLowerAsciiChar
        rw [List.map_cons, show toLowerAsciiChar '.' = '.' from by decide]
      · simp only [ne_eq, List.map_eq_nil_iff]
        exact fun hr => by simp [hr] at hne
      · rw [List.length_map]
        simp only [List.length_cons] at hlen
        omega
      · intro d hd
        obtain ⟨c0, hc0, rfl⟩ := List.mem_map.1 hd
        exact toLowerAsciiChar_good c0 (hall c0 hc0)

/-- C10 — confirmed.  For every client-supplied file name, `safeExt` returns
either `""` or a lowercase `'.'` followed by 1 to 15 ASCII alphanumerics; it
never contains a path separator, so the local write path
`path.join(filesDir, id + ext)` is the files directory plus one
separator-free component. -/
theorem claim10 (name id filesDir : String) (hid : '/' ∉ id.toList) :
    (safeExt name = "" ∨
      ∃ cs : List Char, (safeExt name).toList = '.' :: cs ∧ cs ≠ [] ∧ cs.length ≤ 15 ∧
        ∀ c ∈ cs, (97 ≤ c.toNat ∧ c.toNat ≤ 122) ∨ (48 ≤ c.toNat ∧ c.toNat ≤ 57)) ∧
    '/' ∉ (safeExt name).toList ∧
    mkLocalPath filesDir id (safeExt name) = filesDir ++ "/" ++ (id ++ safeExt name) ∧
    '/' ∉ (id ++ safeExt name).toList := by
  have hshape := safeExt_shape name
  have hslash : '/' ∉ (safeExt name).toList := by
    rcases hshape with h | ⟨cs, hcs, _, _, hall⟩
    · rw [h]; simp
    · rw [hcs]
      intro hmem
      rcases List.mem_cons.1 hmem with h | h
      · exact absurd h (by decide)
      · rcases hall _ h with ⟨h1, _⟩ | ⟨h2, _⟩
        · revert h1; decide
        · revert h2; decide
  refine ⟨hshape, hslash, rfl, ?_⟩
  have happ : (id ++ safeExt name).toList = id.toList ++ (safeExt name).toList := by
    simp [String.toList]
  rw [happ]
  intro hmem
  rcases List.mem_append.1 hmem with h | h
  · exact hid h
  · exact hslash h

/-- C10 witness: evaluating `claim10` at a concrete name and id. -/
theorem claim10_witness : '/' ∉ ("abc123" ++ safeExt "photo.JPG").toList :=
  (claim10 "photo.JPG" "abc123" "/data/files" (by decide)).2.2.2

theorem makeId_spec (bytes : List Nat) (h : bytes.length = 8) :
    (makeId bytes).length = 6 ∧ ∀ c ∈ (makeId bytes).toList, c ∈ idAlphabet.toList := by
  constructor
  · show (List.take 6 _).length = 6
    rw [List.length_take, List.length_map, h]
    decide
  · intro c hc
    have hc2 : c ∈ bytes.map (fun b => idAlphabet.toList.getD (b % idAlphabet.length) 'x') :=
      List.mem_of_mem_take hc
    obtain ⟨b, _, rfl⟩ := List.mem_map.1 hc2
    have hlt : b % idAlphabet.length < idAlphabet.toList.length := by
      have h62 : idAlphabet.length = 62 := by decide
      have h62l : idAlphabet.toList.length = 62 := by decide
      rw [h62, h62l]
      exact Nat.mod_lt b (by omega)
    rw [List.getD_eq_getElem _ _ hlt]
    exact List.getElem_mem hlt

theorem bytesToHex_length (bs : List Nat) : (bytesToHex bs).length = 2 * bs.length := by
  show ((bs.map byteToHex).flatten).length = 2 * bs.length
  induction bs with
  | nil => rfl
  | cons b rest ih =>
    simp only [List.map_cons, List.flatten_cons, List.length_append, List.length_cons, ih]
    show 2 + 2 * rest.length = 2 * (rest.length + 1)
    omega

theorem allocateGo_spec (store : String → Bool) (rand : Nat → List Nat)
    (fallback : List Nat) (hrand : ∀ i, (rand i).length = 8) :
    ∀ fuel t,
      allocateGo store rand fallback fuel t = bytesToHex fallback ∨
      ((allocateGo store rand fallback fuel t).length = 6 ∧
        (∀ c ∈ (allocateGo store rand fallback fuel t).toList, c ∈ idAlphabet.toList) ∧
        store (allocateGo store rand fallback fuel t) = false) := by
  intro fuel
  induction fuel with
  | zero => intro t; left; rfl
  | succ n ih =>
    intro t
    by_cases h : store (makeId (rand t)) = true
    · have heq : allocateGo store rand fallback (n + 1) t
          = allocateGo store rand fallback n (t + 1) := by
        simp [allocateGo, h]
      rw [heq]
      exact ih (t + 1)
    · have heq : allocateGo store rand fallback (n + 1) t = makeId (rand t) := by
        simp [allocateGo, h]
      rw [heq]
      right
      obtain ⟨h6, hmem⟩ := makeId_spec (rand t) (hrand t)
      exact ⟨h6, hmem, by simpa using h⟩

/-- C8 counterexample: with a metadata store in which every id is already
taken, all 10 candidates collide and the allocator returns the hex fallback
without checking it, so the returned id is *not* unique — the store already
contains it. -/
theorem claim8_counterexample :
    allocate storeAll (fun _ => [0, 0, 0, 0, 0, 0, 0, 0]) [0, 0, 0, 0, 0, 0]
        = "000000000000" ∧
      storeAll "000000000000" = true := by
  decide

/-- C8 — corrected.  The allocator always terminates with an id: either one
of the first 10 candidates — a 6-character string over the 62-character
alphabet that the store reports as free — or, after 10 collisions, the
12-character hex fallback, which is returned without a collision check (so
uniqueness of the fallback is not guaranteed, see the counterexample). -/
theorem claim8_amended (store : String → Bool) (rand : Nat → List Nat)
    (fallback : List Nat) (hrand : ∀ i, (rand i).length = 8)
    (hfb : fallback.length = 6) :
    ((allocate store rand fallback).length = 6 ∧
      (∀ c ∈ (allocate store rand fallback).toList, c ∈ idAlphabet.toList) ∧
      store (allocate store rand fallback) = false) ∨
    (allocate store rand fallback = bytesToHex fallback ∧
      (allocate store rand fallback).length = 12) := by
  rcases allocateGo_spec store rand fallback hrand 10 0 with h | h
  · right
    refine ⟨h, ?_⟩
    rw [show allocate store rand fallback = allocateGo store rand fallback 10 0 from rfl, h,
      bytesToHex_length, hfb]
  · left
    exact h

/-- C8 witness: evaluating `claim8_amended` on a store with no collisions. -/
theorem claim8_witness :
    ((allocate storeNone randOnes [2, 2, 2, 2, 2, 2]).length = 6 ∧
      (∀ c ∈ (allocate storeNone randOnes [2, 2, 2, 2, 2, 2]).toList, c ∈ idAlphabet.toList) ∧
      storeNone (allocate storeNone randOnes [2, 2, 2, 2, 2, 2]) = false) ∨
    (allocate storeNone randOnes [2, 2, 2, 2, 2, 2] = bytesToHex [2, 2, 2, 2, 2, 2] ∧
      (allocate storeNone randOnes [2, 2, 2, 2, 2, 2]).length = 12) :=
  claim8_amended storeNone randOnes [2, 2, 2, 2, 2, 2] (fun _ => rfl) rfl

theorem resolveDispatch_ne_forbidden (env : Env) (w : GetWorld) (meta : StoredFile) :
    (resolveDispatch env w meta).1 ≠ GetOutcome.forbidden := by
  unfold resolveDispatch
  split_ifs <;> simp

/-- C7 — confirmed.  For a stored private object whose salt and hash were
written by the upload path (hash of the password `pw`), retrieval with an
absent or non-matching password answers 403 before any backend is
contacted, and retrieval with the correct password passes the gate and is
served by the backend dispatch (for a filesystem record: its bytes). -/
theorem claim7 (hashFn : String → String → String) (env : Env) (w : GetWorld)
    (meta : StoredFile) (provided pw salt h : String)
    (hpriv : meta.priv = true)
    (hsalt : meta.passwordSalt = some salt) (hsaltne : salt ≠ "")
    (hhash : meta.passwordHash = some h) (hhashne : h ≠ "")
    (hstored : h = hashFn salt pw) :
    ((provided = "" ∨ hashFn salt provided ≠ h) →
      GETid hashFn env w (some meta) provided = (GetOutcome.forbidden, [])) ∧
    (provided ≠ "" → hashFn salt provided = h →
      GETid hashFn env w (some meta) provided = resolveDispatch env w meta) ∧
    (provided = pw → pw ≠ "" → meta.storage = Storage.fs →
      GETid hashFn env w (some meta) provided = (GetOutcome.bytes Storage.fs, [Storage.fs])) := by
  have hgate : ∀ p : String, passwordGateBlocks hashFn meta p
      = (p == "" || hashFn salt p != h) := by
    intro p
    simp [passwordGateBlocks, hpriv, hsalt, hhash, truthy, hsaltne, hhashne]
  refine ⟨?_, ?_, ?_⟩
  · intro hcase
    have hblock : passwordGateBlocks hashFn meta provided = true := by
      rw [hgate]
      rcases hcase with hE | hN
      · simp [hE]
      · simp [hN]
    simp [GETid, hblock]
  · intro hne heq
    have hblock : passwordGateBlocks hashFn meta provided = false := by
      rw [hgate]
      simp [hne, heq]
    simp [GETid, hblock]
  · intro hpp hpwne hfs
    subst hpp
    have hblock : passwordGateBlocks hashFn meta provided = false := by
      rw [hgate]
      simp [hpwne, hstored]
    simp [GETid, hblock, resolveDispatch, hfs]

/-- C7 witness: a concrete private filesystem record with password `"pw1"`:
no password and a wrong password are Forbidden with no backend contacted;
the right password streams the bytes. -/
theorem claim7_witness :
    GETid hashConcat envFull getWorldOk (some metaPrivateFs) ""
        = (GetOutcome.forbidden, []) ∧
      GETid hashConcat envFull getWorldOk (some metaPrivateFs) "wrong"
        = (GetOutcome.forbidden, []) ∧
      GETid hashConcat envFull getWorldOk (some metaPrivateFs) "pw1"
        = (GetOutcome.bytes Storage.fs, [Storage.fs]) :=
  ⟨(claim7 hashConcat envFull getWorldOk metaPrivateFs "" "pw1" "s0" (hashConcat "s0" "pw1")
      rfl rfl (by decide) rfl (by decide) rfl).1 (Or.inl rfl),
   (claim7 hashConcat envFull getWorldOk metaPrivateFs "wrong" "pw1" "s0" (hashConcat "s0" "pw1")
      rfl rfl (by decide) rfl (by decide) rfl).1 (Or.inr (by decide)),
   (claim7 hashConcat envFull getWorldOk metaPrivateFs "pw1" "pw1" "s0" (hashConcat "s0" "pw1")
      rfl rfl (by decide) rfl (by decide) rfl).2.2 rfl (by decide) rfl⟩

/-- C9 — confirmed.  A record flagged private whose `passwordSalt` or
`passwordHash` is untruthy is served with no password check at all: the
result equals the plain backend dispatch, is never Forbidden, coincides
with the result for the same record marked public, and the thumbnail route
likewise serves it when its type is an image. -/
theorem claim9 (hashFn : String → String → String) (env : Env) (w : GetWorld)
    (meta : StoredFile) (provided : String)
    (hpriv : meta.priv = true)
    (hmissing : truthy meta.passwordSalt = false ∨ truthy meta.passwordHash = false) :
    GETid hashFn env w (some meta) provided = resolveDispatch env w meta ∧
    (GETid hashFn env w (some meta) provided).1 ≠ GetOutcome.forbidden ∧
    GETid hashFn env w (some meta) provided
      = GETid hashFn env w (some { meta with priv := false }) provided ∧
    (strStartsWith meta.type "image/" = true →
      GETthumb hashFn (some meta) provided = (GetOutcome.bytes Storage.fs, [Storage.fs])) := by
  have hblock : passwordGateBlocks hashFn meta provided = false := by
    unfold passwordGateBlocks
    rcases hmissing with hm | hm <;> simp [hm]
  have hblock2 : passwordGateBlocks hashFn { meta with priv := false } provided = false := by
    simp [passwordGateBlocks]
  have hdisp : resolveDispatch env w { meta with priv := false }
      = resolveDispatch env w meta := rfl
  have hmain : GETid hashFn env w (some meta) provided = resolveDispatch env w meta := by
    simp [GETid, hblock]
  refine ⟨hmain, ?_, ?_, ?_⟩
  · rw [hmain]
    exact resolveDispatch_ne_forbidden env w meta
  · rw [hmain]
    simp [GETid, hblock2, hdisp]
  · intro him
    simp [GETthumb, him, hblock]

/-- C9 witness: a concrete record with `private = true` but no stored salt
or hash is served by plain dispatch (here: filesystem bytes) for any
supplied password. -/
theorem claim9_witness :
    GETid hashConcat envFull getWorldOk (some metaPrivNoHash) "whatever"
      = resolveDispatch envFull getWorldOk metaPrivNoHash :=
  (claim9 hashConcat envFull getWorldOk metaPrivNoHash "whatever" rfl (Or.inl rfl)).1

/-- C5 counterexample: a record whose R2 locator pair is present, in a
deployment without R2 credentials.  The delete request succeeds and removes
the metadata, but no deletion is attempted against any backend — the R2
locator is silently skipped, contradicting "deletion is attempted against
every backend-specific locator present". -/
theorem claim5_counterexample :
    handleDelete envNoR2 delWorldOk (some "deletekey") lookupR2
      = (DelOutcome.success, [], true) := by
  decide

/-- C5 — corrected.  With the Mongo lookup succeeding (which caches the
client, making the later `getMongo` infallible) and R2 credentials present
whenever the record carries an R2 locator, the coordinator issues one delete
call per present locator — independent of every per-call success flag, so a
failing call neither stops the others nor surfaces — and removes the
metadata afterwards; the only non-success outcome is a thrown metadata
removal.  Without R2 credentials the R2 locator is skipped (see the
counterexample). -/
theorem claim5_amended (env : Env) (w : DelWorld) (key : String)
    (lookup : String → Option StoredFile) (meta : StoredFile)
    (hkey : key ≠ "") (hmongo : env.mongoUri ≠ "") (hconn : w.lookupConnectOk = true)
    (hfound : lookup key = some meta)
    (hr2cfg : truthy meta.r2Bucket = true → truthy meta.r2Key = true →
      env.r2Endpoint ≠ "" ∧ env.r2AccessKeyId ≠ "" ∧ env.r2SecretAccessKey ≠ "") :
    ((handleDelete env w (some key) lookup).1 = DelOutcome.success ∨
      (handleDelete env w (some key) lookup).1 = DelOutcome.thrown) ∧
    (w.metaDeleteOk = true →
      (handleDelete env w (some key) lookup).1 = DelOutcome.success ∧
      (handleDelete env w (some key) lookup).2.2 = true) ∧
    (handleDelete env w (some key) lookup).2.1 = deleteOps env w meta ∧
    (truthy meta.gridfsId = true →
      (DeleteOp.gridfs, w.gridfsDeleteOk) ∈ deleteOps env w meta) ∧
    (truthy meta.blobPathname = true →
      (DeleteOp.blobDel, w.blobDelOk) ∈ deleteOps env w meta) ∧
    (truthy meta.r2Bucket = true → truthy meta.r2Key = true →
      (DeleteOp.r2Del, w.r2DelOk) ∈ deleteOps env w meta) ∧
    (meta.filePath ≠ "" → strStartsWith meta.filePath "gridfs://" = false →
      strStartsWith meta.filePath "r2://" = false →
      strStartsWith meta.filePath "http" = false →
      (DeleteOp.fsRm, w.rmOk) ∈ deleteOps env w meta) ∧
    (∀ s m, (handleDelete env w (some key) lookup).1 ≠ DelOutcome.err s m) := by
  have hmain : handleDelete env w (some key) lookup
      = (if w.metaDeleteOk then (DelOutcome.success, deleteOps env w meta, true)
         else (DelOutcome.thrown, deleteOps env w meta, false)) := by
    simp [handleDelete, hkey, hmongo, hconn, hfound]
  refine ⟨?_, ?_, ?_, ?_, ?_, ?_, ?_, ?_⟩
  · rw [hmain]
    cases hM : w.metaDeleteOk <;> simp
  · intro hM
    rw [hmain, hM]
    simp
  · rw [hmain]
    cases hM : w.metaDeleteOk <;> simp
  · intro hg
    simp [deleteOps, hg]
  · intro hb
    simp [deleteOps, hb]
  · intro h1 h2
    obtain ⟨e1, e2, e3⟩ := hr2cfg h1 h2
    simp [deleteOps, h1, h2, e1, e2, e3]
  · intro f1 f2 f3 f4
    simp [deleteOps, f1, f2, f3, f4]
  · intro s m
    rw [hmain]
    cases hM : w.metaDeleteOk <;> simp

/-- C5 witness: evaluating `claim5_amended` on a record carrying all four
locators with the GridFS delete and local `rm` failing — the request still
succeeds, removes the metadata, and every locator was attempted. -/
theorem claim5_witness :
    (handleDelete envFull delWorldMixed (some "deletekey") lookupAll).1
        = DelOutcome.success ∧
      (handleDelete envFull delWorldMixed (some "deletekey") lookupAll).2.2 = true :=
  (claim5_amended envFull delWorldMixed "deletekey" lookupAll metaAllLoc (by decide)
    (by decide) rfl (by decide)
    (fun _ _ => ⟨by decide, by decide, by decide⟩)).2.1 rfl

theorem recWritesOk_buildRecord_iff (hashFn : String → String → String) (env : Env)
    (w : World) (req : UploadReq) (id ext ss checksum filePath : String)
    (g b r2b r2k : Option String) :
    recWritesOk env w (buildRecord hashFn w req id ext ss checksum filePath g b r2b r2k) ↔
      ((ss ≠ "mongodb" ∧ ss ≠ "blob" ∧ ss ≠ "r2") → w.fsOk = true) ∧
      (ss = "mongodb" → env.mongoUri ≠ "" ∧ w.mongoConnectOk = true ∧ w.mongoWriteOk = true) ∧
      (ss = "blob" → w.blobOk = true) ∧
      (ss = "r2" → w.r2Ok = true) ∧
      (g ≠ none → w.mongoConnectOk = true ∧ w.mongoWriteOk = true) ∧
      (b ≠ none → w.blobOk = true) ∧
      (r2k ≠ none → w.r2Ok = true) := by
  unfold recWritesOk buildRecord
  by_cases h1 : ss = "mongodb" <;> by_cases h2 : ss = "blob" <;> by_cases h3 : ss = "r2" <;>
    simp [h1, h2, h3]

theorem recWritesOk_dualBranch (hashFn : String → String → String) (env : Env)
    (w : World) (req : UploadReq) (id ext ck : String) (rec : StoredFile)
    (att : List Storage) (h : dualBranch hashFn env w req id ext ck = (Outcome.ok rec, att)) :
    recWritesOk env w rec := by
  unfold dualBranch persist at h
  repeat'
    first
      | exact Outcome.noConfusion (congrArg Prod.fst h)
      | (have hrec := congrArg Prod.fst h
         injection hrec with hrec
         subst hrec
         rw [recWritesOk_buildRecord_iff]
         refine ⟨?_, ?_, ?_, ?_, ?_, ?_, ?_⟩ <;> intro hx <;> simp_all)
      | split at h

theorem recWritesOk_mongoBranch (hashFn : String → String → String) (env : Env)
    (w : World) (req : UploadReq) (id ext ss ck : String) (rec : StoredFile)
    (att : List Storage) (hss : ss = "mongodb")
    (h : mongoBranch hashFn env w req id ext ss ck = (Outcome.ok rec, att)) :
    recWritesOk env w rec := by
  subst hss
  unfold mongoBranch persist at h
  repeat'
    first
      | exact Outcome.noConfusion (congrArg Prod.fst h)
      | (have hrec := congrArg Prod.fst h
         injection hrec with hrec
         subst hrec
         rw [recWritesOk_buildRecord_iff]
         refine ⟨?_, ?_, ?_, ?_, ?_, ?_, ?_⟩ <;> intro hx <;> simp_all)
      | split at h

theorem recWritesOk_blobBranch (hashFn : String → String → String) (env : Env)
    (w : World) (req : UploadReq) (id ext ss ck : String) (rec : StoredFile)
    (att : List Storage) (hss : ss = "blob")
    (h : blobBranch hashFn env w req id ext ss ck = (Outcome.ok rec, att)) :
    recWritesOk env w rec := by
  subst hss
  unfold blobBranch persist at h
  repeat'
    first
      | exact Outcome.noConfusion (congrArg Prod.fst h)
      | (have hrec := congrArg Prod.fst h
         injection hrec with hrec
         subst hrec
         rw [recWritesOk_buildRecord_iff]
         refine ⟨?_, ?_, ?_, ?_, ?_, ?_, ?_⟩ <;> intro hx <;> simp_all)
      | split at h

theorem recWritesOk_r2Branch (hashFn : String → String → String) (env : Env)
    (w : World) (req : UploadReq) (id ext ss ck : String) (rec : StoredFile)
    (att : List Storage) (hss : ss = "r2")
    (h : r2Branch hashFn env w req id ext ss ck = (Outcome.ok rec, att)) :
    recWritesOk env w rec := by
  subst hss
  unfold r2Branch persist at h
  repeat'
    first
      | exact Outcome.noConfusion (congrArg Prod.fst h)
      | (have hrec := congrArg Prod.fst h
         injection hrec with hrec
         subst hrec
         rw [recWritesOk_buildRecord_iff]
         refine ⟨?_, ?_, ?_, ?_, ?_, ?_, ?_⟩ <;> intro hx <;> simp_all)
      | split at h

theorem recWritesOk_fsBranch (hashFn : String → String → String) (env : Env)
    (w : World) (req : UploadReq) (id ext ss ck fd : String) (rec : StoredFile)
    (att : List Storage) (h1 : ss ≠ "mongodb") (h2 : ss ≠ "blob") (h3 : ss ≠ "r2")
    (h : fsBranch hashFn w req id ext ss ck fd = (Outcome.ok rec, att)) :
    recWritesOk env w rec := by
  unfold fsBranch persist at h
  repeat'
    first
      | exact Outcome.noConfusion (congrArg Prod.fst h)
      | (have hrec := congrArg Prod.fst h
         injection hrec with hrec
         subst hrec
         rw [recWritesOk_buildRecord_iff]
         refine ⟨?_, ?_, ?_, ?_, ?_, ?_, ?_⟩ <;> intro hx <;> simp_all)
      | split at h

theorem recWritesOk_blobBranchDb (hashFn : String → String → String) (env : Env)
    (w : World) (req : UploadReq) (id ext ss ck : String) (rec : StoredFile)
    (att : List Storage) (hss : ss = "blob")
    (h : blobBranchDb hashFn w req id ext ss ck = (Outcome.ok rec, att)) :
    recWritesOk env w rec := by
  subst hss
  unfold blobBranchDb persist at h
  repeat'
    first
      | exact Outcome.noConfusion (congrArg Prod.fst h)
      | (have hrec := congrArg Prod.fst h
         injection hrec with hrec
         subst hrec
         rw [recWritesOk_buildRecord_iff]
         refine ⟨?_, ?_, ?_, ?_, ?_, ?_, ?_⟩ <;> intro hx <;> simp_all)
      | split at h

theorem recWritesOk_r2BranchDb (hashFn : String → String → String) (env : Env)
    (w : World) (req : UploadReq) (id ext ss ck : String) (rec : StoredFile)
    (att : List Storage) (hss : ss = "r2")
    (h : r2BranchDb hashFn env w req id ext ss ck = (Outcome.ok rec, att)) :
    recWritesOk env w rec := by
  subst hss
  unfold r2BranchDb persist at h
  repeat'
    first
      | exact Outcome.noConfusion (congrArg Prod.fst h)
      | (have hrec := congrArg Prod.fst h
         injection hrec with hrec
         subst hrec
         rw [recWritesOk_buildRecord_iff]
         refine ⟨?_, ?_, ?_, ?_, ?_, ?_, ?_⟩ <;> intro hx <;> simp_all)
      | split at h

/-- C6 — confirmed.  In both upload handlers, whenever the handler answers
success — i.e. the metadata record was persisted — the backend write(s) the
record describes succeeded: the authoritative backend's write, and the
write behind every locator on the record.  Every failing-write path returns
an error (or throws) before the metadata step, so no record points at bytes
that were not written. -/
theorem claim6 (hashFn : String → String → String) (env : Env) (w : World)
    (req : UploadReq) (id fd : String) (rec rec2 : StoredFile) (att att2 : List Storage) :
    (uploadRoute hashFn env w req id fd = (Outcome.ok rec, att) → recWritesOk env w rec) ∧
    (uploadRouteDb hashFn env w req id fd = (Outcome.ok rec2, att2) → recWritesOk env w rec2) := by
  constructor
  · intro h
    simp only [uploadRoute] at h
    split at h
    · exact Outcome.noConfusion (congrArg Prod.fst h)
    split at h
    · exact Outcome.noConfusion (congrArg Prod.fst h)
    split at h
    · exact Outcome.noConfusion (congrArg Prod.fst h)
    split at h
    · exact recWritesOk_dualBranch _ _ _ _ _ _ _ _ _ h
    split at h
    · rename_i hss
      exact recWritesOk_mongoBranch _ _ _ _ _ _ _ _ _ _ (by simpa using hss) h
    split at h
    · rename_i hss
      exact recWritesOk_blobBranch _ _ _ _ _ _ _ _ _ _ (by simpa using hss) h
    split at h
    · rename_i hss
      exact recWritesOk_r2Branch _ _ _ _ _ _ _ _ _ _ (by simpa using hss) h
    · rename_i h1 h2 h3
      exact recWritesOk_fsBranch _ _ _ _ _ _ _ _ _ _ _ (by simpa using h1)
        (by simpa using h2) (by simpa using h3) h
  · intro h
    simp only [uploadRouteDb] at h
    split at h
    · exact Outcome.noConfusion (congrArg Prod.fst h)
    split at h
    · exact Outcome.noConfusion (congrArg Prod.fst h)
    split at h
    · exact Outcome.noConfusion (congrArg Prod.fst h)
    split at h
    · exact recWritesOk_dualBranch _ _ _ _ _ _ _ _ _ h
    split at h
    · rename_i hss
      exact recWritesOk_mongoBranch _ _ _ _ _ _ _ _ _ _ (by simpa using hss) h
    split at h
    · rename_i hss
      exact recWritesOk_blobBranchDb _ _ _ _ _ _ _ _ _ _ (by simpa using hss) h
    split at h
    · rename_i hss
      exact recWritesOk_r2BranchDb _ _ _ _ _ _ _ _ _ _ (by simpa using hss) h
    · rename_i h1 h2 h3
      exact recWritesOk_fsBranch _ _ _ _ _ _ _ _ _ _ _ (by simpa using h1)
        (by simpa using h2) (by simpa using h3) h

theorem requestedStorage_form (req : UploadReq) (env : Env) (s : String)
    (hs : req.formStorage = some s) (hne : s ≠ "") : requestedStorage req env = s := by
  simp [requestedStorage, jsOrStr, hs, hne]

theorem requestedStorage_default_fs (req : UploadReq) (env : Env)
    (hform : req.formStorage = none)
    (hquery : req.queryStorage = none ∨ req.queryStorage = some "")
    (hdef : env.storageDefault = "") : requestedStorage req env = "fs" := by
  rcases hquery with hq | hq <;> simp [requestedStorage, jsOrStr, hform, hq, hdef]

theorem isDualUpload_eq_false_of_form (req : UploadReq) (env : Env) (s : String)
    (hs : req.formStorage = some s) : isDualUpload req env = false := by
  simp [isDualUpload, hs]

theorem isDualUpload_small (req : UploadReq) (env : Env)
    (hsize : req.fileSize ≤ env.dualThreshold) : isDualUpload req env = false := by
  have hd : decide (env.dualThreshold < req.fileSize) = false :=
    decide_eq_false (not_lt.2 hsize)
  simp [isDualUpload, hd]

theorem isDualUpload_large (req : UploadReq) (env : Env)
    (hform : req.formStorage = none)
    (hquery : req.queryStorage = none ∨ req.queryStorage = some "")
    (hlarge : env.dualThreshold < req.fileSize) : isDualUpload req env = true := by
  rcases hquery with hq | hq <;> simp [isDualUpload, hform, hq, hlarge]

theorem uploadRoute_explicit_mongodb (hashFn : String → String → String) (env : Env)
    (w : World) (req : UploadReq) (id fd : String)
    (hfile : req.hasFile = true)
    (hpw : (uploadIsPrivate req && uploadPassword req == "") = false)
    (hsize : (decide (0 < env.maxBytes) && decide (env.maxBytes < req.fileSize)) = false)
    (hstore : req.formStorage = some "mongodb") :
    uploadRoute hashFn env w req id fd
      = mongoBranch hashFn env w req id (safeExt req.fileName) "mongodb"
          (if useClientChecksum req then jsTrim (providedChecksum req) else w.digest) := by
  have hdual := isDualUpload_eq_false_of_form req env _ hstore
  have hrs : requestedStorage req env = "mongodb" :=
    requestedStorage_form req env _ hstore (by decide)
  simp only [uploadRoute, hfile, hpw, hsize, hdual, hrs]
  simp

theorem uploadRoute_explicit_blob (hashFn : String → String → String) (env : Env)
    (w : World) (req : UploadReq) (id fd : String)
    (hfile : req.hasFile = true)
    (hpw : (uploadIsPrivate req && uploadPassword req == "") = false)
    (hsize : (decide (0 < env.maxBytes) && decide (env.maxBytes < req.fileSize)) = false)
    (hstore : req.formStorage = some "blob") :
    uploadRoute hashFn env w req id fd
      = blobBranch hashFn env w req id (safeExt req.fileName) "blob"
          (if useClientChecksum req then jsTrim (providedChecksum req) else w.digest) := by
  have hdual := isDualUpload_eq_false_of_form req env _ hstore
  have hrs : requestedStorage req env = "blob" :=
    requestedStorage_form req env _ hstore (by decide)
  simp only [uploadRoute, hfile, hpw, hsize, hdual, hrs]
  simp

theorem uploadRoute_default_fs (hashFn : String → String → String) (env : Env)
    (w : World) (req : UploadReq) (id fd : String)
    (hfile : req.hasFile = true)
    (hpw : (uploadIsPrivate req && uploadPassword req == "") = false)
    (hsize : (decide (0 < env.maxBytes) && decide (env.maxBytes < req.fileSize)) = false)
    (hform : req.formStorage = none)
    (hquery : req.queryStorage = none ∨ req.queryStorage = some "")
    (hdef : env.storageDefault = "")
    (hsmall : req.fileSize ≤ env.dualThreshold) :
    uploadRoute hashFn env w req id fd
      = fsBranch hashFn w req id (safeExt req.fileName) "fs"
          (if useClientChecksum req then jsTrim (providedChecksum req) else w.digest) fd := by
  have hdual := isDualUpload_small req env hsmall
  have hrs := requestedStorage_default_fs req env hform hquery hdef
  simp only [uploadRoute, hfile, hpw, hsize, hdual, hrs]
  simp

theorem uploadRoute_dual (hashFn : String → String → String) (env : Env)
    (w : World) (req : UploadReq) (id fd : String)
    (hfile : req.hasFile = true)
    (hpw : (uploadIsPrivate req && uploadPassword req == "") = false)
    (hsize : (decide (0 < env.maxBytes) && decide (env.maxBytes < req.fileSize)) = false)
    (hform : req.formStorage = none)
    (hquery : req.queryStorage = none ∨ req.queryStorage = some "")
    (hlarge : env.dualThreshold < req.fileSize) :
    uploadRoute hashFn env w req id fd
      = dualBranch hashFn env w req id (safeExt req.fileName)
          (if useClientChecksum req then jsTrim (providedChecksum req) else w.digest) := by
  have hdual := isDualUpload_large req env hform hquery hlarge
  simp only [uploadRoute, hfile, hpw, hsize, hdual]
  simp

/-- C1 counterexample: an upload that explicitly requests the blob backend,
in a deployment where the blob put fails and R2 is configured, succeeds via
a silent fallback to R2 — the persisted record is tagged r2 and both blob
and R2 writes were attempted, where the claim requires a 500 naming the
blob backend and no other attempt. -/
theorem claim1_counterexample :
    outcomeStorage
        (uploadRoute hashConcat envFull worldBlobDown reqExplicitBlob "abc123" "/data/files").1
      = some Storage.r2 ∧
    (uploadRoute hashConcat envFull worldBlobDown reqExplicitBlob "abc123" "/data/files").2
      = [Storage.blob, Storage.r2] := by
  decide

/-- C1 — corrected.  The no-fallback contract holds for the mongodb backend
only: an explicit `storage=mongodb` upload attempts at most the MongoDB
write and every failure yields the 500 naming MongoDB; explicit blob
requests fall back to R2 on failure, and explicit r2 requests with missing
R2 configuration fall back to blob (see the counterexample). -/
theorem claim1_amended (hashFn : String → String → String) (env : Env) (w : World)
    (req : UploadReq) (id fd : String)
    (hfile : req.hasFile = true)
    (hpw : (uploadIsPrivate req && uploadPassword req == "") = false)
    (hsize : (decide (0 < env.maxBytes) && decide (env.maxBytes < req.fileSize)) = false)
    (hstore : req.formStorage = some "mongodb") :
    ((uploadRoute hashFn env w req id fd).2 = [] ∨
      (uploadRoute hashFn env w req id fd).2 = [Storage.mongodb]) ∧
    ((env.mongoUri = "" ∨ w.mongoConnectOk = false ∨ w.mongoWriteOk = false) →
      (uploadRoute hashFn env w req id fd).1 = Outcome.err 500 "MongoDB upload failed") ∧
    (env.mongoUri ≠ "" → w.mongoConnectOk = true → w.mongoWriteOk = true →
      w.metaSaveOk = true →
      outcomeStorage (uploadRoute hashFn env w req id fd).1 = some Storage.mongodb ∧
      (uploadRoute hashFn env w req id fd).2 = [Storage.mongodb]) := by
  rw [uploadRoute_explicit_mongodb hashFn env w req id fd hfile hpw hsize hstore]
  unfold mongoBranch persist
  refine ⟨?_, ?_, ?_⟩
  · split_ifs <;> simp
  · intro hbad
    split_ifs with h1 h2 h3 <;> simp_all
  · intro hu hc hw hm
    split_ifs with h1 h2 h3 <;> simp_all [outcomeStorage, buildRecord]

/-- C1 witness: evaluating `claim1_amended` on an explicit mongodb upload
with a healthy MongoDB — only the MongoDB write happens. -/
theorem claim1_witness :
    outcomeStorage
        (uploadRoute hashConcat envFull worldAllOk reqExplicitMongo "abc123" "/data/files").1
      = some Storage.mongodb ∧
    (uploadRoute hashConcat envFull worldAllOk reqExplicitMongo "abc123" "/data/files").2
      = [Storage.mongodb] :=
  (claim1_amended hashConcat envFull worldAllOk reqExplicitMongo "abc123" "/data/files"
    (by decide) (by decide) (by decide) rfl).2.2 (by decide) rfl rfl rfl

/-- C2 counterexample: a small upload with no explicit backend, in a world
where a blob-CDN write would succeed, is stored on the filesystem only: the
attempt list is exactly the filesystem write — the blob CDN is never
attempted and never becomes authoritative, where the claim requires an
opportunistic CDN write that takes over on success. -/
theorem claim2_counterexample :
    outcomeStorage
        (uploadRoute hashConcat envFull worldAllOk reqBase "abc123" "/data/files").1
      = some Storage.fs ∧
    (uploadRoute hashConcat envFull worldAllOk reqBase "abc123" "/data/files").2
      = [Storage.fs] := by
  decide

/-- C2 — corrected.  A small upload with no explicitly requested backend
(and no configured storage default) is written to the local filesystem
backend only: the filesystem write is the only backend attempt, the record
is tagged fs with no blob pathname, and a filesystem failure escapes as a
thrown error.  No blob-CDN write is attempted. -/
theorem claim2_amended (hashFn : String → String → String) (env : Env) (w : World)
    (req : UploadReq) (id fd : String)
    (hfile : req.hasFile = true)
    (hpw : (uploadIsPrivate req && uploadPassword req == "") = false)
    (hsize : (decide (0 < env.maxBytes) && decide (env.maxBytes < req.fileSize)) = false)
    (hform : req.formStorage = none)
    (hquery : req.queryStorage = none ∨ req.queryStorage = some "")
    (hdef : env.storageDefault = "")
    (hsmall : req.fileSize ≤ env.dualThreshold) :
    (uploadRoute hashFn env w req id fd).2 = [Storage.fs] ∧
    (w.fsOk = true → w.metaSaveOk = true →
      outcomeStorage (uploadRoute hashFn env w req id fd).1 = some Storage.fs ∧
      outcomeBlobPathname (uploadRoute hashFn env w req id fd).1 = none) ∧
    (w.fsOk = false → (uploadRoute hashFn env w req id fd).1 = Outcome.thrown) := by
  rw [uploadRoute_default_fs hashFn env w req id fd hfile hpw hsize hform hquery hdef hsmall]
  unfold fsBranch persist
  refine ⟨?_, ?_, ?_⟩
  · split_ifs <;> simp
  · intro hf hm
    split_ifs <;> simp_all [outcomeStorage, outcomeBlobPathname, buildRecord]
  · intro hf
    split_ifs <;> simp_all

/-- C2 witness: evaluating `claim2_amended` on a concrete small upload. -/
theorem claim2_witness :
    outcomeStorage
        (uploadRoute hashConcat envFull worldAllOk reqBase "abc123" "/data/files").1
      = some Storage.fs ∧
    outcomeBlobPathname
        (uploadRoute hashConcat envFull worldAllOk reqBase "abc123" "/data/files").1
      = none :=
  (claim2_amended hashConcat envFull worldAllOk reqBase "abc123" "/data/files"
    (by decide) (by decide) (by decide) rfl (Or.inl rfl) rfl (by decide)).2.1 rfl rfl

/-- C3 counterexample: a large upload with no explicit backend, where the
R2 write would succeed but the GridFS write fails, is reported as a failed
request ("Dual upload failed") with both backends attempted — where the
claim requires R2 to be attempted first, GridFS only as a fallback, and
failure to be reported only when both fail. -/
theorem claim3_counterexample :
    uploadRoute hashConcat envFull worldMongoWriteDown reqLarge "abc123" "/data/files"
      = (Outcome.err 500 "Dual upload failed", [Storage.mongodb, Storage.r2]) := by
  decide

/-- C3 — corrected.  A large upload (size above the dual threshold) with no
explicit backend is written concurrently to both GridFS and R2: a missing
Mongo configuration or connection fails the request before any write; a
missing R2 configuration fails it with its own 500; if either of the two
writes fails the request fails with "Dual upload failed" after attempting
both; only when both succeed is the record persisted, tagged r2 and also
carrying the GridFS id. -/
theorem claim3_amended (hashFn : String → String → String) (env : Env) (w : World)
    (req : UploadReq) (id fd : String)
    (hfile : req.hasFile = true)
    (hpw : (uploadIsPrivate req && uploadPassword req == "") = false)
    (hsize : (decide (0 < env.maxBytes) && decide (env.maxBytes < req.fileSize)) = false)
    (hform : req.formStorage = none)
    (hquery : req.queryStorage = none ∨ req.queryStorage = some "")
    (hlarge : env.dualThreshold < req.fileSize) :
    ((env.mongoUri = "" ∨ w.mongoConnectOk = false) →
      uploadRoute hashFn env w req id fd = (Outcome.err 500 "Dual upload failed", [])) ∧
    (env.mongoUri ≠ "" → w.mongoConnectOk = true → r2Configured env = false →
      uploadRoute hashFn env w req id fd
        = (Outcome.err 500 "Missing R2 configuration env", [])) ∧
    (env.mongoUri ≠ "" → w.mongoConnectOk = true → r2Configured env = true →
      (w.mongoWriteOk = false ∨ w.r2Ok = false) →
      uploadRoute hashFn env w req id fd
        = (Outcome.err 500 "Dual upload failed", [Storage.mongodb, Storage.r2])) ∧
    (env.mongoUri ≠ "" → w.mongoConnectOk = true → r2Configured env = true →
      w.mongoWriteOk = true → w.r2Ok = true → w.metaSaveOk = true →
      outcomeStorage (uploadRoute hashFn env w req id fd).1 = some Storage.r2 ∧
      outcomeGridfsId (uploadRoute hashFn env w req id fd).1 = some w.gridfsOid ∧
      (uploadRoute hashFn env w req id fd).2 = [Storage.mongodb, Storage.r2]) := by
  rw [uploadRoute_dual hashFn env w req id fd hfile hpw hsize hform hquery hlarge]
  unfold dualBranch persist
  refine ⟨?_, ?_, ?_, ?_⟩
  · intro hbad
    split_ifs with h1 h2 h3 h4 <;> simp_all
  · intro hu hc hr2
    split_ifs with h1 h2 h3 h4 <;> simp_all
  · intro hu hc hr2 hbad
    split_ifs with h1 h2 h3 h4 <;> simp_all
  · intro hu hc hr2 hw hr hm
    split_ifs with h1 h2 h3 h4 <;>
      simp_all [outcomeStorage, outcomeGridfsId, buildRecord]

/-- C3 witness: evaluating `claim3_amended` on a healthy dual write — the
record is tagged r2, keeps the GridFS id, and both writes were issued. -/
theorem claim3_witness :
    outcomeStorage
        (uploadRoute hashConcat envFull worldAllOk reqLarge "abc123" "/data/files").1
      = some Storage.r2 ∧
    outcomeGridfsId
        (uploadRoute hashConcat envFull worldAllOk reqLarge "abc123" "/data/files").1
      = some worldAllOk.gridfsOid ∧
    (uploadRoute hashConcat envFull worldAllOk reqLarge "abc123" "/data/files").2
      = [Storage.mongodb, Storage.r2] :=
  (claim3_amended hashConcat envFull worldAllOk reqLarge "abc123" "/data/files"
    (by decide) (by decide) (by decide) rfl (Or.inl rfl) (by decide)).2.2.2
    (by decide) rfl (by decide) rfl rfl rfl

/-- C4 counterexample: the record persisted by the large-file dual write is
tagged r2 and carries the R2 locator pair *and* a GridFS id at once — the
backend-specific locator fields are not mutually exclusive. -/
theorem claim4_counterexample :
    outcomeGridfsId
        (uploadRoute hashConcat envFull worldAllOk reqLarge "abc123" "/data/files").1
      = some "gfs1" ∧
    outcomeR2Key
        (uploadRoute hashConcat envFull worldAllOk reqLarge "abc123" "/data/files").1
      = some "abc123.bin" ∧
    outcomeStorage
        (uploadRoute hashConcat envFull worldAllOk reqLarge "abc123" "/data/files").1
      = some Storage.r2 := by
  decide

theorem locatorsOk_dualBranch (hashFn : String → String → String) (env : Env)
    (w : World) (req : UploadReq) (id ext ck : String) (rec : StoredFile)
    (att : List Storage) (h : dualBranch hashFn env w req id ext ck = (Outcome.ok rec, att)) :
    locatorsOk rec := by
  unfold dualBranch persist at h
  repeat'
    first
      | exact Outcome.noConfusion (congrArg Prod.fst h)
      | (have hrec := congrArg Prod.fst h
         injection hrec with hrec
         subst hrec
         simp [locatorsOk, buildRecord])
      | split at h

theorem locatorsOk_mongoBranch (hashFn : String → String → String) (env : Env)
    (w : World) (req : UploadReq) (id ext ss ck : String) (rec : StoredFile)
    (att : List Storage) (hss : ss = "mongodb")
    (h : mongoBranch hashFn env w req id ext ss ck = (Outcome.ok rec, att)) :
    locatorsOk rec := by
  subst hss
  unfold mongoBranch persist at h
  repeat'
    first
      | exact Outcome.noConfusion (congrArg Prod.fst h)
      | (have hrec := congrArg Prod.fst h
         injection hrec with hrec
         subst hrec
         simp [locatorsOk, buildRecord])
      | split at h

theorem locatorsOk_blobBranch (hashFn : String → String → String) (env : Env)
    (w : World) (req : UploadReq) (id ext ss ck : String) (rec : StoredFile)
    (att : List Storage) (hss : ss = "blob")
    (h : blobBranch hashFn env w req id ext ss ck = (Outcome.ok rec, att)) :
    locatorsOk rec := by
  subst hss
  unfold blobBranch persist at h
  repeat'
    first
      | exact Outcome.noConfusion (congrArg Prod.fst h)
      | (have hrec := congrArg Prod.fst h
         injection hrec with hrec
         subst hrec
         simp [locatorsOk, buildRecord, blobPathOpt])
      | split at h

theorem locatorsOk_r2Branch (hashFn : String → String → String) (env : Env)
    (w : World) (req : UploadReq) (id ext ss ck : String) (rec : StoredFile)
    (att : List Storage) (hss : ss = "r2")
    (h : r2Branch hashFn env w req id ext ss ck = (Outcome.ok rec, att)) :
    locatorsOk rec := by
  subst hss
  unfold r2Branch persist at h
  repeat'
    first
      | exact Outcome.noConfusion (congrArg Prod.fst h)
      | (have hrec := congrArg Prod.fst h
         injection hrec with hrec
         subst hrec
         simp [locatorsOk, buildRecord, blobPathOpt])
      | split at h

theorem locatorsOk_fsBranch (hashFn : String → String → String) (w : World)
    (req : UploadReq) (id ext ss ck fd : String) (rec : StoredFile)
    (att : List Storage) (h1 : ss ≠ "mongodb") (h2 : ss ≠ "blob") (h3 : ss ≠ "r2")
    (h : fsBranch hashFn w req id ext ss ck fd = (Outcome.ok rec, att)) :
    locatorsOk rec := by
  unfold fsBranch persist at h
  repeat'
    first
      | exact Outcome.noConfusion (congrArg Prod.fst h)
      | (have hrec := congrArg Prod.fst h
         injection hrec with hrec
         subst hrec
         simp [locatorsOk, buildRecord, h1, h2, h3])
      | split at h

/-- C4 — corrected.  On every persisted record, R2 locator fields appear
only with the r2 tag and the blob pathname only with the blob tag — but the
GridFS id is not exclusive: the dual-write path persists it on an r2-tagged
record (see the counterexample), so the locator fields are not pairwise
mutually exclusive; a GridFS id may accompany the R2 locators. -/
theorem claim4_amended (hashFn : String → String → String) (env : Env) (w : World)
    (req : UploadReq) (id fd : String) (rec : StoredFile) (att : List Storage)
    (h : uploadRoute hashFn env w req id fd = (Outcome.ok rec, att)) :
    locatorsOk rec := by
  simp only [uploadRoute] at h
  split at h
  · exact Outcome.noConfusion (congrArg Prod.fst h)
  split at h
  · exact Outcome.noConfusion (congrArg Prod.fst h)
  split at h
  · exact Outcome.noConfusion (congrArg Prod.fst h)
  split at h
  · exact locatorsOk_dualBranch _ _ _ _ _ _ _ _ _ h
  split at h
  · rename_i hss
    exact locatorsOk_mongoBranch _ _ _ _ _ _ _ _ _ _ (by simpa using hss) h
  split at h
  · rename_i hss
    exact locatorsOk_blobBranch _ _ _ _ _ _ _ _ _ _ (by simpa using hss) h
  split at h
  · rename_i hss
    exact locatorsOk_r2Branch _ _ _ _ _ _ _ _ _ _ (by simpa using hss) h
  · rename_i h1 h2 h3
    exact locatorsOk_fsBranch _ _ _ _ _ _ _ _ _ _ (by simpa using h1)
      (by simpa using h2) (by simpa using h3) h

/-- C4 witness: evaluating `claim4_amended` on the concrete dual-write
record. -/
theorem claim4_witness : locatorsOk recDual :=
  claim4_amended hashConcat envFull worldAllOk reqLarge "abc123" "/data/files" recDual
    [Storage.mongodb, Storage.r2] (by decide)

/-- C6 witness: evaluating `claim6` on the concrete small filesystem
upload. -/
theorem claim6_witness : recWritesOk envFull worldAllOk recFs :=
  (claim6 hashConcat envFull worldAllOk reqBase "abc123" "/data/files" recFs recFs
    [Storage.fs] [Storage.fs]).1 (by decide)

end Uploader